import Mathlib

/-!
Shallow embedding of `entra_test_cli.py` (Microsoft Entra OIDC validation CLI).

Pure helper functions are translated directly; the effectful parts
(HTTP transport plus `json.loads`, interactive input, `secrets.token_bytes`)
are passed in explicitly as oracle parameters.  Python exceptions are
modelled with `Except`; `SkipStep` and ordinary exceptions are the two
constructors of `PyExc`.  Machine-level details: bytes are `Nat` values
`< 256`, 32-bit arithmetic is `Nat` arithmetic `% 2^32`.
-/

namespace EntraCLI

/-- Truthiness of a Python `str | None` value: `None` and `""` are falsy. -/
def pyTruthy : Option String → Bool
  | none => false
  | some s => !s.data.isEmpty

/-- Python `_resolve_public_client` (lines 1086-1089): when the flag is `None`,
the client is public exactly when `bool(client_secret)` is false. -/
def _resolve_public_client (flag : Option Bool) (client_secret : Option String) : Bool :=
  match flag with
  | none => !pyTruthy client_secret
  | some b => b

/-! Base64url (`base64.urlsafe_b64encode`). -/

/-- The URL-safe base64 alphabet. -/
def b64Chars : List Char :=
  "ABCDEFGHIJKLMNOPQRSTUVWXYZabcdefghijklmnopqrstuvwxyz0123456789-_".data

def b64CharAt (i : Nat) : Char := b64Chars.getD i 'A'

/-- Python `base64.urlsafe_b64encode` on a byte list, producing characters
(with `=` padding for a trailing group of 1 or 2 bytes). -/
def b64urlEncode : List Nat → List Char
  | a :: b :: c :: rest =>
      let n := a * 65536 + b * 256 + c
      b64CharAt (n / 262144) :: b64CharAt (n / 4096 % 64) :: b64CharAt (n / 64 % 64)
        :: b64CharAt (n % 64) :: b64urlEncode rest
  | [a, b] =>
      let n := a * 256 + b
      [b64CharAt (n / 1024), b64CharAt (n / 16 % 64), b64CharAt (n % 16 * 4), '=']
  | [a] => [b64CharAt (a / 4), b64CharAt (a % 4 * 16), '=', '=']
  | [] => []

/-- Python `str.rstrip("=")` on a character list. -/
def rstripEq (l : List Char) : List Char :=
  (l.reverse.dropWhile (fun c => c == '=')).reverse

/-- Python `_generate_code_verifier` (lines 1097-1102).  The randomness of
`secrets.token_bytes(48)` is passed in explicitly as `randomBytes`;
the `length` parameter is unused, exactly as in the source. -/
def _generate_code_verifier (length : Nat) (randomBytes : List Nat) : String :=
  let verifier := rstripEq (b64urlEncode randomBytes)
  let verifier :=
    if verifier.length < 43 then verifier ++ List.replicate (43 - verifier.length) 'A'
    else verifier
  ⟨verifier.take 128⟩

/-! SHA-256 (`hashlib.sha256`), on byte lists, words as `Nat % 2^32`. -/

def M32 : Nat := 4294967296

def rotr (n x : Nat) : Nat := ((x >>> n) ||| (x <<< (32 - n))) % M32

def ch (x y z : Nat) : Nat := (x &&& y) ^^^ ((x ^^^ 4294967295) &&& z)

def maj (x y z : Nat) : Nat := (x &&& y) ^^^ (x &&& z) ^^^ (y &&& z)

def bsig0 (x : Nat) : Nat := rotr 2 x ^^^ rotr 13 x ^^^ rotr 22 x

def bsig1 (x : Nat) : Nat := rotr 6 x ^^^ rotr 11 x ^^^ rotr 25 x

def ssig0 (x : Nat) : Nat := rotr 7 x ^^^ rotr 18 x ^^^ (x >>> 3)

def ssig1 (x : Nat) : Nat := rotr 17 x ^^^ rotr 19 x ^^^ (x >>> 10)

def sha256K : List Nat :=
  [1116352408, 1899447441, 3049323471, 3921009573, 961987163,
   1508970993, 2453635748, 2870763221, 3624381080, 310598401,
   607225278, 1426881987, 1925078388, 2162078206, 2614888103,
   3248222580, 3835390401, 4022224774, 264347078, 604807628,
   770255983, 1249150122, 1555081692, 1996064986, 2554220882,
   2821834349, 2952996808, 3210313671, 3336571891, 3584528711,
   113926993, 338241895, 666307205, 773529912, 1294757372,
   1396182291, 1695183700, 1986661051, 2177026350, 2456956037,
   2730485921, 2820302411, 3259730800, 3345764771, 3516065817,
   3600352804, 4094571909, 275423344, 430227734, 506948616,
   659060556, 883997877, 958139571, 1322822218, 1537002063,
   1747873779, 1955562222, 2024104815, 2227730452, 2361852424,
   2428436474, 2756734187, 3204031479, 3329325298]

def sha256H0 : List Nat :=
  [1779033703, 3144134277, 1013904242, 2773480762,
   1359893119, 2600822924, 528734635, 1541459225]

/-- Big-endian bytes of `n`, `count` bytes wide. -/
def toBytesBE (count n : Nat) : List Nat :=
  (List.range count).map (fun i => (n >>> (8 * (count - 1 - i))) % 256)

/-- SHA-256 message padding: `0x80`, zeros to 56 mod 64, 8-byte bit length. -/
def sha256Pad (msg : List Nat) : List Nat :=
  let zeros := (119 - msg.length % 64) % 64
  msg ++ 128 :: (List.replicate zeros 0 ++ toBytesBE 8 (msg.length * 8))

/-- Big-endian 32-bit words of a byte list. -/
def toWordsBE (l : List Nat) : List Nat :=
  (List.range (l.length / 4)).map fun i =>
    l.getD (4 * i) 0 * 16777216 + l.getD (4 * i + 1) 0 * 65536 +
      l.getD (4 * i + 2) 0 * 256 + l.getD (4 * i + 3) 0

/-- The 64-word message schedule of one 64-byte block. -/
def sha256Schedule (block : List Nat) : List Nat :=
  let w := (List.range 48).foldl
    (fun (w : Array Nat) _ =>
      let n := w.size
      w.push ((ssig1 (w.getD (n - 2) 0) + w.getD (n - 7) 0 +
        ssig0 (w.getD (n - 15) 0) + w.getD (n - 16) 0) % M32))
    (toWordsBE block).toArray
  w.toList

/-- One compression round; `kw` is `(K i + W i) % 2^32`. -/
def sha256Round (st : List Nat) (kw : Nat) : List Nat :=
  match st with
  | [a, b, c, d, e, f, g, h] =>
      let t1 := (h + bsig1 e + ch e f g + kw) % M32
      let t2 := (bsig0 a + maj a b c) % M32
      [(t1 + t2) % M32, a, b, c, (d + t1) % M32, e, f, g]
  | other => other

def sha256Compress (h : List Nat) (block : List Nat) : List Nat :=
  let kw := List.zipWith (fun k w => (k + w) % M32) sha256K (sha256Schedule block)
  let st := kw.foldl sha256Round h
  List.zipWith (fun x y => (x + y) % M32) h st

def blocksOf (l : List Nat) : List (List Nat) :=
  (List.range (l.length / 64)).map fun i => (l.drop (64 * i)).take 64

/-- Python `hashlib.sha256(msg).digest()`: the 32-byte digest of a byte list. -/
def sha256 (msg : List Nat) : List Nat :=
  (((blocksOf (sha256Pad msg)).foldl sha256Compress sha256H0).map (toBytesBE 4)).flatten

/-- Python `str.encode("ascii")`: byte list, or `none` when a char is non-ASCII
(Python raises `UnicodeEncodeError` there). -/
def asciiEncode (s : String) : Option (List Nat) :=
  if s.data.all (fun c => c.toNat < 128) then some (s.data.map Char.toNat) else none

/-- Python `_code_challenge` (lines 1105-1107): base64url of the SHA-256 digest of
the ASCII-encoded verifier, `=` padding stripped. -/
def _code_challenge (verifier : String) : Option String :=
  (asciiEncode verifier).map fun bytes => ⟨rstripEq (b64urlEncode (sha256 bytes))⟩

/-! URL handling (`urllib.parse`), modelled at the character level;
percent-escapes are decoded bytewise (faithful for ASCII input). -/

/-- ASCII whitespace stripped by Python `str.strip()`. -/
def isPySpace (c : Char) : Bool :=
  c = ' ' || c = '\t' || c = '\n' || c = '\r' || c.toNat = 11 || c.toNat = 12

/-- Python `str.strip()` (ASCII whitespace). -/
def pyStrip (s : String) : String :=
  ⟨((s.data.dropWhile isPySpace).reverse.dropWhile isPySpace).reverse⟩

/-- Split at the first occurrence of `c`: `(before, rest-after-c)`,
second component `none` when `c` does not occur. -/
def splitFirst (c : Char) : List Char → List Char × Option (List Char)
  | [] => ([], none)
  | x :: rest =>
    if x = c then ([], some rest)
    else
      match splitFirst c rest with
      | (pre, aft) => (x :: pre, aft)

def isSchemeChar (c : Char) : Bool := c.isAlphanum || c = '+' || c = '-' || c = '.'

/-- Drop a leading `scheme:` when the part before the first `:` is a valid
URL scheme, as `urlsplit` does. -/
def splitScheme (l : List Char) : List Char :=
  match splitFirst ':' l with
  | (pre, some rest) =>
    match pre with
    | [] => l
    | c0 :: cs => if c0.isAlpha && cs.all isSchemeChar then rest else l
  | (_, none) => l

/-- Drop a leading `//netloc` (the netloc extends to the next `/`, `?` or
`#`), as `urlsplit` does. -/
def splitNetloc (l : List Char) : List Char :=
  match l with
  | '/' :: '/' :: rest => rest.dropWhile (fun c => c ≠ '/' && c ≠ '?' && c ≠ '#')
  | _ => l

structure UrlParts where
  path : List Char
  query : List Char
deriving DecidableEq, Repr

/-- The `path` and `query` components of `urllib.parse.urlparse`
(scheme, netloc and fragment are split off and discarded). -/
def pyUrlparse (s : String) : UrlParts :=
  let noFrag := (splitFirst '#' s.data).1
  let rest := splitNetloc (splitScheme noFrag)
  match splitFirst '?' rest with
  | (path, some q) => { path := path, query := q }
  | (path, none) => { path := path, query := [] }

def hexDigit (c : Char) : Option Nat :=
  if '0' ≤ c ∧ c ≤ '9' then some (c.toNat - 48)
  else if 'a' ≤ c ∧ c ≤ 'f' then some (c.toNat - 87)
  else if 'A' ≤ c ∧ c ≤ 'F' then some (c.toNat - 55)
  else none

/-- Recursion is on the fuel so the kernel can evaluate the definition; the
fuel never runs out when it starts at the list length. -/
def unquotePlusGo : Nat → List Char → List Char
  | _, [] => []
  | 0, l => l
  | fuel + 1, c :: rest =>
    if c = '+' then ' ' :: unquotePlusGo fuel rest
    else if c = '%' then
      match rest with
      | a :: b :: rest2 =>
        match hexDigit a, hexDigit b with
        | some ha, some hb => Char.ofNat (16 * ha + hb) :: unquotePlusGo fuel rest2
        | _, _ => '%' :: unquotePlusGo fuel rest
      | _ => '%' :: unquotePlusGo fuel rest
    else c :: unquotePlusGo fuel rest

/-- Python `urllib.parse.unquote_plus`: `+` becomes space, valid `%XX` escapes are
decoded bytewise, invalid escapes are kept literally. -/
def unquotePlus (l : List Char) : List Char := unquotePlusGo l.length l

/-- Split a character list on a separator character (`str.split(sep)`). -/
def splitOnChar (c : Char) : List Char → List (List Char)
  | [] => [[]]
  | x :: rest =>
    if x = c then [] :: splitOnChar c rest
    else
      match splitOnChar c rest with
      | [] => [[x]]
      | g :: gs => (x :: g) :: gs

/-- Python `urllib.parse.parse_qsl` with default arguments: split on `&`, skip empty
chunks, chunks without `=` and chunks with an empty value
(`keep_blank_values=False`), unquote names and values. -/
def parse_qsl (query : List Char) : List (String × String) :=
  (splitOnChar '&' query).filterMap fun chunk =>
    if chunk.isEmpty then none
    else
      match splitFirst '=' chunk with
      | (_, none) => none
      | (name, some value) =>
        if value.isEmpty then none
        else some (⟨unquotePlus name⟩, ⟨unquotePlus value⟩)

def dictAppend (acc : List (String × List String)) (k v : String) :
    List (String × List String) :=
  if acc.any (fun p => p.1 = k) then
    acc.map (fun p => if p.1 = k then (p.1, p.2 ++ [v]) else p)
  else acc ++ [(k, [v])]

/-- Python `urllib.parse.parse_qs`: group `parse_qsl` pairs by key. -/
def parse_qs (query : List Char) : List (String × List String) :=
  (parse_qsl query).foldl (fun acc kv => dictAppend acc kv.1 kv.2) []

/-- Python `dict.get`. -/
def dictGet {α : Type} (d : List (String × α)) (k : String) : Option α :=
  (d.find? (fun p => p.1 == k)).map Prod.snd

/-- Python exceptions as they matter to the report runner: the `SkipStep`
signal, and every other exception with its message. -/
inductive PyExc where
  | skipStep (msg : String)
  | pyError (msg : String)
deriving DecidableEq, Repr

instance {ε α : Type} [DecidableEq ε] [DecidableEq α] : DecidableEq (Except ε α) :=
  fun x y =>
    match x, y with
    | .ok a, .ok b => if h : a = b then isTrue (by rw [h]) else isFalse (by simp [h])
    | .error a, .error b => if h : a = b then isTrue (by rw [h]) else isFalse (by simp [h])
    | .ok _, .error _ => isFalse (by simp)
    | .error _, .ok _ => isFalse (by simp)

def extractCodeErrMsg : String :=
  "Redirect URL does not contain a `code` parameter. Paste the full redirect URL or just the code."

/-- Python `_extract_code` (lines 1177-1190): blank input raises `SkipStep`; input
with a query string must carry a `code` parameter and yields its first
value; input without a query string is returned as-is. -/
def _extract_code (value : String) : Except PyExc String :=
  let trimmed := pyStrip value
  if trimmed.data.isEmpty then .error (.skipStep "Authorization code not provided.")
  else
    let parsed := pyUrlparse trimmed
    if !parsed.query.isEmpty then
      let query := parse_qs parsed.query
      match dictGet query "code" with
      | none => .error (.pyError extractCodeErrMsg)
      | some [] => .error (.pyError extractCodeErrMsg)
      | some (v :: _) => .ok v
    else .ok trimmed

def DEFAULT_TENANT_ID : String := "14b77578-9773-42d5-8507-251ca2dc2b06"

def DEFAULT_SCOPE : String := "email openid profile offline_access"

/-- Python `_tenant_from_discovery_url` (lines 1206-1213): the first nonempty path
segment of the URL, `none` for a falsy URL or an empty path. -/
def _tenant_from_discovery_url (url : Option String) : Option String :=
  match url with
  | none => none
  | some u =>
    if u.data.isEmpty then none
    else
      let parts :=
        ((splitOnChar '/' (pyUrlparse u).path).filter (fun p => !p.isEmpty)).map String.mk
      parts.head?

/-- Python `EntraEnvDefaults` dataclass (lines 1066-1072). -/
structure EntraEnvDefaults where
  client_id : Option String := none
  client_secret : Option String := none
  redirect_uri : Option String := none
  discovery_url : Option String := none
  tenant_id : String := DEFAULT_TENANT_ID
deriving DecidableEq, Repr

/-- The key-value mapping produced by `dotenv_values` for the env file. -/
structure EnvValues where
  client_id : Option String := none
  client_secret : Option String := none
  redirect_uri : Option String := none
  discovery_url : Option String := none
  tenant_id : Option String := none
deriving DecidableEq, Repr

/-- Python `_load_env_defaults` (lines 1216-1230) for an existing env file whose
parsed contents are `values` (reading the file is I/O; its parsed result is
passed in). -/
def _load_env_defaults (values : EnvValues) : EntraEnvDefaults :=
  let defaults : EntraEnvDefaults :=
    { client_id := values.client_id, client_secret := values.client_secret,
      redirect_uri := values.redirect_uri, discovery_url := values.discovery_url }
  let tenant : Option String :=
    if pyTruthy values.tenant_id then values.tenant_id
    else _tenant_from_discovery_url values.discovery_url
  if pyTruthy tenant then { defaults with tenant_id := tenant.getD "" } else defaults

/-- Written from the spec sentence, for comparison with the source function:
the last-but-one nonempty path segment of the URL. -/
def spec_tenantLastButOne (url : String) : Option String :=
  let parts :=
    ((splitOnChar '/' (pyUrlparse url).path).filter (fun p => !p.isEmpty)).map String.mk
  ((parts.reverse).drop 1).head?

/-! The `report` subcommand (`handle_report`, lines 1400-1659).  HTTP and
`json.loads` are fused into an oracle returning parsed JSON; the
interactive prompt and `secrets.token_bytes(48)` are oracle fields too. -/

/-- JSON values as produced by `json.loads` (ints only; the CLI never
inspects fractional values). -/
inductive JVal where
  | jnull
  | jbool (b : Bool)
  | jnum (n : Int)
  | jstr (s : String)
  | jarr (elems : List JVal)
  | jobj (fields : List (String × JVal))

def JVal.isNull : JVal → Bool
  | .jnull => true
  | _ => false

/-- Python truthiness of a JSON value. -/
def jTruthy : JVal → Bool
  | .jnull => false
  | .jbool b => b
  | .jnum n => n ≠ 0
  | .jstr s => !s.data.isEmpty
  | .jarr l => !l.isEmpty
  | .jobj l => !l.isEmpty

/-- Python `str()` rendering as used in f-strings (container reprs abbreviated;
the CLI only ever renders scalars). -/
def pyStr : JVal → String
  | .jnull => "None"
  | .jbool true => "True"
  | .jbool false => "False"
  | .jnum n => toString n
  | .jstr s => s
  | .jarr _ => "<list>"
  | .jobj _ => "<dict>"

/-- Python `len()`: strings and containers only, `TypeError` otherwise. -/
def pyLen : JVal → Except PyExc Nat
  | .jstr s => .ok s.length
  | .jarr l => .ok l.length
  | .jobj l => .ok l.length
  | _ => .error (.pyError "TypeError: object has no len()")

/-- Python `payload.get(k, dflt)`: `AttributeError` when the payload is not an
object, as in Python. -/
def jGetD (v : JVal) (k : String) (dflt : JVal) : Except PyExc JVal :=
  match v with
  | .jobj fields => .ok ((dictGet fields k).getD dflt)
  | _ => .error (.pyError "AttributeError: no attribute get")

/-- Python `k in payload` for an object payload; other payloads are not modelled
further (`TypeError` stands in for the remaining Python semantics). -/
def jHasKey (v : JVal) (k : String) : Except PyExc Bool :=
  match v with
  | .jobj fields => .ok (fields.any (fun p => p.1 == k))
  | _ => .error (.pyError "TypeError: argument of type is not iterable")

def optJ : Option String → JVal
  | none => .jnull
  | some s => .jstr s

def pyTruthyS (s : String) : Bool := !s.data.isEmpty

def joinSep (sep : String) : List String → String
  | [] => ""
  | [s] => s
  | s :: rest => s ++ sep ++ joinSep sep rest

/-- Python `textwrap.indent(s, pre)`: prefix every line that holds a
non-whitespace character. -/
def pyIndent (pre s : String) : String :=
  joinSep "\n" ((splitOnChar '\n' s.data).map fun line =>
    if line.any (fun c => !isPySpace c) then pre ++ String.mk line else String.mk line)

def hexUpper (n : Nat) : Char := "0123456789ABCDEF".data.getD n '0'

/-- Python `urllib.parse.quote` with the default `safe="/"`: unreserved characters
and `/` kept, the rest percent-encoded (bytewise; faithful for ASCII). -/
def quoteChars (l : List Char) : List Char :=
  (l.map fun c =>
    if c.isAlphanum || c = '_' || c = '.' || c = '-' || c = '~' || c = '/' then [c]
    else ['%', hexUpper (c.toNat / 16 % 16), hexUpper (c.toNat % 16)]).flatten

/-- Python `_encode_query` (lines 1092-1094): drop `None` values, then
`urlencode(..., quote_via=quote)`. -/
def _encode_query (params : List (String × JVal)) : String :=
  joinSep "&" ((params.filter (fun p => !p.2.isNull)).map fun p =>
    String.mk (quoteChars p.1.data) ++ "=" ++ String.mk (quoteChars (pyStr p.2).data))

def AUTH_ENDPOINT (tenant : String) : String :=
  "https://login.microsoftonline.com/" ++ tenant ++ "/oauth2/v2.0/authorize"

def TOKEN_ENDPOINT (tenant : String) : String :=
  "https://login.microsoftonline.com/" ++ tenant ++ "/oauth2/v2.0/token"

def WELL_KNOWN_ENDPOINT (tenant : String) : String :=
  "https://login.microsoftonline.com/" ++ tenant ++ "/v2.0/.well-known/openid-configuration"

def USERINFO_ENDPOINT : String := "https://graph.microsoft.com/oidc/userinfo"

/-- Python `_build_authorization_url` (lines 1151-1174). -/
def _build_authorization_url (tenant_id client_id redirect_uri scope response_mode
    response_type : String) (state : Option String) (code_challenge : Option String)
    (code_challenge_method : Option String) : String :=
  let params : List (String × JVal) :=
    [("client_id", .jstr client_id), ("redirect_uri", .jstr redirect_uri),
     ("response_mode", .jstr response_mode), ("response_type", .jstr response_type),
     ("scope", .jstr scope),
     ("state", .jstr (if pyTruthy state then state.getD "" else "none"))]
  let params :=
    if pyTruthy code_challenge then
      params ++ [("code_challenge", .jstr (code_challenge.getD "")),
        ("code_challenge_method",
          .jstr (if pyTruthy code_challenge_method then code_challenge_method.getD ""
            else "S256"))]
    else params
  AUTH_ENDPOINT tenant_id ++ "?" ++ _encode_query params

/-- The argparse namespace reaching `handle_report`: `client_id` and
`redirect_uri` are strings (argparse marks them required when absent from
the env file), the rest mirrors the flag types. -/
structure ReportArgs where
  env_file : String := ".env"
  tenant_id : String := DEFAULT_TENANT_ID
  scope : String := DEFAULT_SCOPE
  discovery_url : Option String := none
  timeout : Nat := 30
  client_id : String := ""
  client_secret : Option String := none
  redirect_uri : String := ""
  response_mode : String := "query"
  response_type : String := "code"
  state : String := "none"
  authorization_code : Option String := none
  code_verifier : Option String := none
  refresh_token : Option String := none
  access_token : Option String := none
  client_credentials_scope : Option String := none
  disable_pkce : Bool := false
  public_client : Option Bool := none
  non_interactive : Bool := false
  open_browser : Bool := false

/-- The mutable `context` dict of a report run; a key is "in" the dict
exactly when the field is `some`. -/
structure Context where
  code_verifier : Option String := none
  authorization_code : Option String := none
  authorization_url : Option String := none
  client_credentials : Option JVal := none
  auth_tokens : Option JVal := none
  refresh_tokens : Option JVal := none

/-- Effect environment of a run: HTTP transport fused with `json.loads`
of the body, the interactive prompt and the `secrets.token_bytes(48)`
entropy.  A transport or parse failure is an error message. -/
structure Oracle where
  hget : String → List (String × String) → Except String JVal
  postForm : String → List (String × JVal) → Except String JVal
  inputLine : String := ""
  randomBytes : List Nat := []

/-- Steps as state-threading computations: mutations of `context` made
before an exception persist, as they do across Python `raise`. -/
def PyM (α : Type) : Type := Context → (Except PyExc α) × Context

instance : Monad PyM where
  pure a := fun ctx => (.ok a, ctx)
  bind x f := fun ctx =>
    match x ctx with
    | (.ok a, ctx2) => f a ctx2
    | (.error e, ctx2) => (.error e, ctx2)

def PyM.raise {α : Type} (e : PyExc) : PyM α := fun ctx => (.error e, ctx)

def PyM.skip {α : Type} (msg : String) : PyM α := PyM.raise (.skipStep msg)

def PyM.fail {α : Type} (msg : String) : PyM α := PyM.raise (.pyError msg)

def PyM.http (r : Except String JVal) : PyM JVal :=
  fun ctx => (r.mapError .pyError, ctx)

def PyM.lift {α : Type} (r : Except PyExc α) : PyM α := fun ctx => (r, ctx)

def PyM.read : PyM Context := fun ctx => (.ok ctx, ctx)

def PyM.mod (f : Context → Context) : PyM Unit := fun ctx => (.ok (), f ctx)

/-- Python `ReportEntry` dataclass (lines 1075-1079); `status` is `"PASS"`,
`"SKIP"` or `"FAIL"`. -/
structure ReportEntry where
  name : String
  status : String
  detail : String
deriving DecidableEq, Repr

/-- Python `run_step` (lines 1408-1415): PASS on success, SKIP on the `SkipStep`
signal, FAIL on any other exception; detail is `str(exc)`. -/
def run_step (name : String) (outcome : Except PyExc String) : ReportEntry :=
  match outcome with
  | .ok detail => ⟨name, "PASS", detail⟩
  | .error (.skipStep msg) => ⟨name, "SKIP", msg⟩
  | .error (.pyError msg) => ⟨name, "FAIL", msg⟩

/-- Python `step_config` (lines 1417-1446). -/
def step_config (args : ReportArgs) (public_client : Bool) : Except PyExc String :=
  let required :=
    [("client_id", pyTruthyS args.client_id), ("redirect_uri", pyTruthyS args.redirect_uri)]
      ++ (if !public_client then [("client_secret", pyTruthy args.client_secret)] else [])
  let missing := (required.filter (fun p => !p.2)).map Prod.fst
  if !missing.isEmpty then
    .error (.pyError ("Missing required values in " ++ args.env_file ++ ": "
      ++ joinSep ", " missing ++ "."))
  else
    let secret_detail :=
      if public_client && pyTruthy args.client_secret then
        "Client secret: loaded (not sent for public-client flow)"
      else if public_client then "Client secret: not required for public-client flow"
      else "Client secret: loaded"
    .ok (pyIndent "  " (joinSep "\n"
      ["Client ID: loaded (" ++ toString args.client_id.length ++ " chars)",
       "Redirect URI: " ++ args.redirect_uri,
       secret_detail]))

/-- Python `step_discovery` (lines 1448-1456). -/
def step_discovery (args : ReportArgs) (O : Oracle) : Except PyExc String := do
  let discovery_url :=
    if pyTruthy args.discovery_url then args.discovery_url.getD ""
    else WELL_KNOWN_ENDPOINT args.tenant_id
  let payload ← (O.hget discovery_url []).mapError PyExc.pyError
  let issuer ← jGetD payload "issuer" (.jstr "<unknown>")
  let token_endpoint ← jGetD payload "token_endpoint" (.jstr "<unknown>")
  pure (pyIndent "  " ("Issuer: " ++ pyStr issuer ++ "\nToken endpoint: "
    ++ pyStr token_endpoint))

/-- Python `step_client_credentials` (lines 1458-1488). -/
def step_client_credentials (args : ReportArgs) (O : Oracle) (public_client : Bool) :
    PyM String := do
  if public_client then
    PyM.skip "Client credentials grant skipped because this app is registered as a public client."
  else if !pyTruthy args.client_credentials_scope then
    PyM.skip "No client-credentials scope supplied. Provide `--client-credentials-scope` to exercise this step."
  else do
    let scope := args.client_credentials_scope.getD ""
    let data : List (String × JVal) :=
      [("client_id", .jstr args.client_id), ("client_secret", optJ args.client_secret),
       ("grant_type", .jstr "client_credentials"), ("scope", .jstr scope)]
    let parsed ← PyM.http (O.postForm (TOKEN_ENDPOINT args.tenant_id) data)
    PyM.mod (fun c => { c with client_credentials := some parsed })
    let expires ← PyM.lift (jGetD parsed "expires_in" (.jstr "unknown"))
    let tok ← PyM.lift (jGetD parsed "access_token" (.jstr ""))
    let token_chars ← PyM.lift (pyLen tok)
    pure (pyIndent "  " ("Issued client_credentials access token (length "
      ++ toString token_chars ++ " chars, expires in " ++ pyStr expires ++ "s)."))

/-- Python `step_authorization` (lines 1490-1548). -/
def step_authorization (args : ReportArgs) (O : Oracle) (use_pkce : Bool) : PyM String := do
  if pyTruthy args.authorization_code then do
    let ctx ← PyM.read
    if use_pkce && ctx.code_verifier.isNone then
      PyM.fail "PKCE is required for this flow. Supply --code-verifier with the value used when obtaining the code."
    else do
      let extracted ← PyM.lift (_extract_code (args.authorization_code.getD ""))
      PyM.mod (fun c => { c with authorization_code := some extracted })
      pure (pyIndent "  " "Authorization code supplied via CLI options.")
  else if args.non_interactive then
    PyM.skip "Authorization code not provided and prompts are disabled (--non-interactive)."
  else do
    let ctx ← PyM.read
    if use_pkce && ctx.code_verifier.isNone then
      PyM.mod (fun c => { c with code_verifier := some (_generate_code_verifier 64 O.randomBytes) })
    let ctx ← PyM.read
    let code_verifier := ctx.code_verifier
    let code_challenge : Option String ←
      if use_pkce && pyTruthy code_verifier then
        match _code_challenge (code_verifier.getD "") with
        | some c => pure (some c)
        | none => PyM.fail "UnicodeEncodeError: ascii codec cannot encode"
      else pure none
    let url := _build_authorization_url args.tenant_id args.client_id args.redirect_uri
      args.scope args.response_mode args.response_type (some args.state) code_challenge
      (if pyTruthy code_challenge then some "S256" else none)
    PyM.mod (fun c => { c with authorization_url := some url })
    let raw := pyStrip O.inputLine
    if !pyTruthyS raw then
      PyM.skip "Authorization code not provided. Re-run with --authorization-code or allow interactive prompts."
    else do
      let extracted ← PyM.lift (_extract_code raw)
      PyM.mod (fun c => { c with authorization_code := some extracted })
      pure (pyIndent "  " "Authorization code captured via interactive login.")

/-- The form body assembled by `step_token` (lines 1561-1572): the
`client_secret` key is popped when the client is public; `code_verifier`
is added only when one is present. -/
def step_token_data (args : ReportArgs) (code : String) (code_verifier : Option String)
    (public_client : Bool) : List (String × JVal) :=
  let data : List (String × JVal) :=
    [("client_id", .jstr args.client_id), ("client_secret", optJ args.client_secret),
     ("grant_type", .jstr "authorization_code"), ("code", .jstr code),
     ("redirect_uri", .jstr args.redirect_uri), ("scope", .jstr args.scope)]
  let data := if public_client then data.filter (fun p => p.1 ≠ "client_secret") else data
  if pyTruthy code_verifier then data ++ [("code_verifier", .jstr (code_verifier.getD ""))]
  else data

/-- Python `step_token` (lines 1550-1587). -/
def step_token (args : ReportArgs) (O : Oracle) (use_pkce public_client : Bool) :
    PyM String := do
  let ctx ← PyM.read
  let code := ctx.authorization_code
  if !pyTruthy code then
    PyM.skip "No authorization code captured; token exchange skipped."
  else do
    let code_verifier := ctx.code_verifier
    if use_pkce && !pyTruthy code_verifier then
      PyM.fail "PKCE code verifier missing. Capture the code and verifier in the same run or provide --code-verifier."
    else do
      let data := step_token_data args (code.getD "") code_verifier public_client
      let parsed ← PyM.http (O.postForm (TOKEN_ENDPOINT args.tenant_id) data)
      PyM.mod (fun c => { c with auth_tokens := some parsed })
      let expires ← PyM.lift (jGetD parsed "expires_in" (.jstr "unknown"))
      let tok ← PyM.lift (jGetD parsed "access_token" (.jstr ""))
      let tokLen ← PyM.lift (pyLen tok)
      let has_refresh ← PyM.lift (jHasKey parsed "refresh_token")
      pure (pyIndent "  " (joinSep "\n"
        ["Received access token (length " ++ toString tokLen ++ " chars).",
         "Expires in: " ++ pyStr expires ++ " seconds.",
         "Refresh token issued: " ++ (if has_refresh then "yes" else "no") ++ "."]))

/-- Python `step_refresh` (lines 1589-1617). -/
def step_refresh (args : ReportArgs) (O : Oracle) (public_client : Bool) : PyM String := do
  let ctx ← PyM.read
  let refresh_token : JVal ←
    if pyTruthy args.refresh_token then pure (.jstr (args.refresh_token.getD ""))
    else
      match ctx.auth_tokens with
      | none => pure .jnull
      | some t => if jTruthy t then PyM.lift (jGetD t "refresh_token" .jnull) else pure .jnull
  if !jTruthy refresh_token then
    PyM.skip "No refresh token available. Ensure offline_access scope is granted."
  else do
    let data : List (String × JVal) :=
      [("client_id", .jstr args.client_id), ("grant_type", .jstr "refresh_token"),
       ("refresh_token", refresh_token), ("scope", .jstr args.scope)]
    let data :=
      if !public_client then data ++ [("client_secret", optJ args.client_secret)] else data
    let parsed ← PyM.http (O.postForm (TOKEN_ENDPOINT args.tenant_id) data)
    PyM.mod (fun c => { c with refresh_tokens := some parsed })
    let expires ← PyM.lift (jGetD parsed "expires_in" (.jstr "unknown"))
    pure (pyIndent "  " ("Refresh token exchanged successfully (new access token expires in "
      ++ pyStr expires ++ "s)."))

/-- Python `step_userinfo` (lines 1619-1636). -/
def step_userinfo (args : ReportArgs) (O : Oracle) : PyM String := do
  let ctx ← PyM.read
  let token_source : JVal :=
    match ctx.auth_tokens with
    | some t => if jTruthy t then t else .jobj []
    | none => .jobj []
  let access_token : JVal ←
    if pyTruthy args.access_token then pure (.jstr (args.access_token.getD ""))
    else PyM.lift (jGetD token_source "access_token" .jnull)
  if !jTruthy access_token then
    PyM.skip "No access token available for userinfo call."
  else do
    let claims ← PyM.http (O.hget USERINFO_ENDPOINT
      [("Authorization", "Bearer " ++ pyStr access_token)])
    match claims with
    | .jobj fields =>
      let important := (["sub", "email", "name", "preferred_username"].filterMap fun k =>
        match dictGet fields k with
        | some v => if v.isNull then none else some (k, v)
        | none => none)
      let summary := joinSep "\n" (important.map fun p => p.1 ++ ": " ++ pyStr p.2)
      let summary := if summary.data.isEmpty then "No standard claims returned." else summary
      pure (pyIndent "  " summary)
    | _ => PyM.fail "AttributeError: no attribute get"

/-- Python `handle_report` (lines 1400-1659): the seven steps in fixed order, the
recorded entries, and the process exit code (`SystemExit` with a message
gives 1 when any step failed, otherwise the run returns normally, 0).
Printing is not modelled. -/
def handle_report (args : ReportArgs) (O : Oracle) : List ReportEntry × Nat :=
  let use_pkce := !args.disable_pkce
  let public_client := _resolve_public_client args.public_client args.client_secret
  let ctx0 : Context :=
    { code_verifier := if pyTruthy args.code_verifier then args.code_verifier else none }
  let e1 := run_step ("Load configuration from " ++ args.env_file) (step_config args public_client)
  let e2 := run_step "Fetch OIDC discovery metadata" (step_discovery args O)
  let s3 := step_client_credentials args O public_client ctx0
  let s4 := step_authorization args O use_pkce s3.2
  let s5 := step_token args O use_pkce public_client s4.2
  let s6 := step_refresh args O public_client s5.2
  let s7 := step_userinfo args O s6.2
  let entries := [e1, e2, run_step "Client credentials grant" s3.1,
    run_step "Authorization code capture" s4.1,
    run_step "Exchange authorization code for tokens" s5.1,
    run_step "Refresh token exchange" s6.1,
    run_step "Userinfo endpoint call" s7.1]
  let failures := entries.filter (fun e => e.status == "FAIL")
  (entries, if failures.isEmpty then 0 else 1)

def testOracle : Oracle where
  hget := fun _ _ =>
    .ok (.jobj [("issuer", .jstr "https://issuer"), ("token_endpoint", .jstr "https://issuer/token")])
  postForm := fun _ data =>
    match dictGet data "grant_type" with
    | some (.jstr "client_credentials") =>
      .ok (.jobj [("access_token", .jstr "app-token"), ("expires_in", .jnum 1200)])
    | some (.jstr "refresh_token") =>
      .ok (.jobj [("access_token", .jstr "refreshed"), ("expires_in", .jnum 1800)])
    | _ =>
      .ok (.jobj [("access_token", .jstr "token"), ("refresh_token", .jstr "refresh"),
        ("expires_in", .jnum 3600)])

def testArgs : ReportArgs :=
  { client_id := "client", client_secret := some "secret",
    redirect_uri := "https://example.com/cb",
    discovery_url := some "https://login.microsoftonline.com/tenant/v2.0/.well-known/openid-configuration",
    tenant_id := "tenant", authorization_code := some "https://example.com/cb?code=abc123",
    code_verifier := some "verifier", client_credentials_scope := some "api://app/.default",
    non_interactive := true }

/-- The RFC 7636 unreserved verifier alphabet. -/
def isUnreserved (c : Char) : Bool :=
  c.isAlpha || c.isDigit || c = '-' || c = '.' || c = '_' || c = '~'

/-- An oracle for runs where no HTTP call is expected to succeed. -/
def emptyOracle : Oracle where
  hget := fun _ _ => .error "network disabled"
  postForm := fun _ _ => .error "network disabled"

/-- Arguments for the C1 witness: flagged public, secret loaded. -/
def C1_args : ReportArgs :=
  { client_id := "client", redirect_uri := "https://example.com/cb",
    client_secret := some "topsecret", public_client := some true }

/-- Arguments for the C5 witness: code supplied, no verifier, PKCE on. -/
def C5_args : ReportArgs :=
  { client_id := "client", redirect_uri := "https://example.com/cb",
    client_secret := some "secret",
    authorization_code := some "https://example.com/cb?code=abc123" }

/-- Arguments for the C9 witness: whitespace code, verifier supplied. -/
def C9_args : ReportArgs :=
  { client_id := "client", redirect_uri := "https://example.com/cb",
    client_secret := some "secret", authorization_code := some " ",
    code_verifier := some "verifier" }

/-! Helper lemmas. -/

theorem getD_mem_or {α : Type} (l : List α) (i : Nat) (d : α) :
    l.getD i d ∈ l ∨ l.getD i d = d := by
  induction l generalizing i with
  | nil => right; simp [List.getD]
  | cons a t ih =>
    cases i with
    | zero => left; simp [List.getD]
    | succ n =>
      rcases ih n with h | h
      · left; rw [List.getD_cons_succ]; exact List.mem_cons_of_mem _ h
      · right; rw [List.getD_cons_succ]; exact h

theorem b64CharAt_mem (i : Nat) : b64CharAt i ∈ b64Chars := by
  rcases getD_mem_or b64Chars i 'A' with h | h
  · exact h
  · rw [b64CharAt, h]; decide

theorem b64CharAt_ne_pad (i : Nat) : b64CharAt i ≠ '=' := by
  intro h
  have := b64CharAt_mem i
  rw [h] at this
  exact absurd this (by decide)

/-- For input of length divisible by 3, base64url encodes 3 bytes to 4
alphabet characters with no padding. -/
theorem b64urlEncode_three :
    ∀ (l : List Nat), l.length % 3 = 0 →
      (b64urlEncode l).length = l.length / 3 * 4 ∧ ∀ c ∈ b64urlEncode l, c ∈ b64Chars
  | [], _ => by simp [b64urlEncode]
  | [_], h => by simp at h
  | [_, _], h => by simp at h
  | a :: b :: c :: rest, h => by
    have h3 : rest.length % 3 = 0 := by
      simp only [List.length_cons] at h
      omega
    obtain ⟨hl, hm⟩ := b64urlEncode_three rest h3
    constructor
    · simp only [b64urlEncode, List.length_cons, hl]
      omega
    · intro x hx
      simp only [b64urlEncode, List.mem_cons] at hx
      rcases hx with h1 | h1 | h1 | h1 | h1 <;>
        first
          | (rw [h1]; exact b64CharAt_mem _)
          | exact hm x h1

theorem dropWhile_id_of_none {α : Type} (p : α → Bool) (l : List α)
    (h : ∀ c ∈ l, p c = false) : l.dropWhile p = l := by
  cases l with
  | nil => rfl
  | cons a t => simp [List.dropWhile_cons, h a (List.mem_cons_self a t)]

theorem rstripEq_eq_self (l : List Char) (h : ∀ c ∈ l, c ≠ '=') : rstripEq l = l := by
  unfold rstripEq
  rw [dropWhile_id_of_none _ _ (fun c hc => by
    have := h c (List.mem_reverse.mp hc)
    simp [this]), List.reverse_reverse]

/-- For 48 input bytes, `_generate_code_verifier` is just the 64-character
base64url encoding: no padding to strip, no padding with `A`, no
truncation. -/
theorem gen_verifier_data (n : Nat) (bytes : List Nat) (hlen : bytes.length = 48) :
    (_generate_code_verifier n bytes).data = b64urlEncode bytes ∧
    (b64urlEncode bytes).length = 64 := by
  obtain ⟨hl, hm⟩ := b64urlEncode_three bytes (by rw [hlen])
  rw [hlen] at hl
  norm_num at hl
  have hne : ∀ c ∈ b64urlEncode bytes, c ≠ '=' := fun c hc he =>
    absurd (hm c hc) (by rw [he]; decide)
  have hr : rstripEq (b64urlEncode bytes) = b64urlEncode bytes := rstripEq_eq_self _ hne
  constructor
  · unfold _generate_code_verifier
    dsimp only
    rw [hr, hl]
    norm_num [hl]
  · exact hl

theorem dictGet_eq_none {α : Type} (d : List (String × α)) (k : String)
    (h : k ∉ d.map Prod.fst) : dictGet d k = none := by
  unfold dictGet
  rw [List.find?_eq_none.mpr]
  · rfl
  · intro p hp
    simp only [beq_iff_eq]
    intro hk
    exact h (List.mem_map.mpr ⟨p, hp, hk⟩)

/-! Validation of the embedding against the repository's own test suite
(`tests/test_entra_test_cli.py`), with the stubbed transport the tests
install via monkeypatching. -/

/-- Matches test_handle_report_succeeds_with_code_and_verifier: with a
code, a verifier and a client-credentials scope, every step passes and the
run exits 0. -/
theorem model_report_all_pass :
    ((handle_report testArgs testOracle).1.map ReportEntry.status)
      = ["PASS", "PASS", "PASS", "PASS", "PASS", "PASS", "PASS"]
    ∧ (handle_report testArgs testOracle).2 = 0 := by decide

/-- Matches test_handle_report_requires_pkce_verifier: without the
verifier the capture step fails, later steps skip, and the run exits 1. -/
theorem model_report_pkce_missing :
    ((handle_report { testArgs with code_verifier := none } testOracle).1.map ReportEntry.status)
      = ["PASS", "PASS", "PASS", "FAIL", "SKIP", "SKIP", "SKIP"]
    ∧ (handle_report { testArgs with code_verifier := none } testOracle).2 = 1 := by decide

/-- Matches test_handle_report_public_client_skips_secret: with no secret
the client resolves public, the client-credentials step skips, and the
token form body carries no client_secret key. -/
theorem model_report_public_client :
    ((handle_report { testArgs with client_secret := none, client_credentials_scope := none }
        testOracle).1.map ReportEntry.status)
      = ["PASS", "PASS", "SKIP", "PASS", "PASS", "PASS", "PASS"]
    ∧ (step_token_data { testArgs with client_secret := none } "abc123" (some "verifier")
        true).map Prod.fst
      = ["client_id", "grant_type", "code", "redirect_uri", "scope", "code_verifier"] := by
  decide

/-! The claims. -/

/-- C8: every string returned by `_generate_code_verifier` (its input being
the 48 bytes drawn from `secrets.token_bytes(48)`) has length between 43
and 128 and consists only of RFC 7636 unreserved characters. -/
theorem claim_C8 (length : Nat) (bytes : List Nat) (hlen : bytes.length = 48) :
    43 ≤ (_generate_code_verifier length bytes).length ∧
    (_generate_code_verifier length bytes).length ≤ 128 ∧
    ∀ c ∈ (_generate_code_verifier length bytes).data, isUnreserved c = true := by
  obtain ⟨hdata, hl⟩ := gen_verifier_data length bytes hlen
  obtain ⟨-, hm⟩ := b64urlEncode_three bytes (by rw [hlen])
  have hlen2 : (_generate_code_verifier length bytes).length = 64 := by
    show (_generate_code_verifier length bytes).data.length = 64
    rw [hdata, hl]
  refine ⟨by omega, by omega, ?_⟩
  intro c hc
  rw [hdata] at hc
  have hall : ∀ x ∈ b64Chars, isUnreserved x = true := by decide
  exact hall c (hm c hc)

/-- Witness for C8 at a concrete 48-byte input. -/
theorem claim_C8_witness :
    (List.replicate 48 0).length = 48 ∧
    (43 ≤ (_generate_code_verifier 64 (List.replicate 48 0)).length ∧
     (_generate_code_verifier 64 (List.replicate 48 0)).length ≤ 128 ∧
     ∀ c ∈ (_generate_code_verifier 64 (List.replicate 48 0)).data, isUnreserved c = true) :=
  ⟨by decide, claim_C8 64 (List.replicate 48 0) (by decide)⟩

/-- C10: `_generate_code_verifier` ignores its length parameter entirely
and always returns exactly 64 characters for the 48 bytes it draws. -/
theorem claim_C10 (len1 len2 : Nat) (bytes : List Nat) (hlen : bytes.length = 48) :
    (_generate_code_verifier len1 bytes).length = 64 ∧
    _generate_code_verifier len1 bytes = _generate_code_verifier len2 bytes := by
  obtain ⟨hdata, hl⟩ := gen_verifier_data len1 bytes hlen
  refine ⟨?_, rfl⟩
  show (_generate_code_verifier len1 bytes).data.length = 64
  rw [hdata, hl]

/-- Witness for C10 at the lengths 43 and 128 on a concrete byte list. -/
theorem claim_C10_witness :
    (List.replicate 48 7).length = 48 ∧
    ((_generate_code_verifier 43 (List.replicate 48 7)).length = 64 ∧
     _generate_code_verifier 43 (List.replicate 48 7)
       = _generate_code_verifier 128 (List.replicate 48 7)) :=
  ⟨by decide, claim_C10 43 128 (List.replicate 48 7) (by decide)⟩

/-- C4: for every ASCII verifier, `_code_challenge` is the unpadded
base64url encoding of the SHA-256 digest of the verifier, and on the fixed
verifier "test" it equals the published literal digest value. -/
theorem claim_C4 (v : String) (h : v.data.all (fun c => c.toNat < 128) = true) :
    _code_challenge v = some ⟨rstripEq (b64urlEncode (sha256 (v.data.map Char.toNat)))⟩ ∧
    _code_challenge "test" = some "n4bQgYhMfWWaL-qgxVrQFaO_TxsrC4Is0V1sFbDwCgg" := by
  refine ⟨?_, by decide⟩
  simp [_code_challenge, asciiEncode, h]

/-- Witness for C4 at the fixed verifier "test". -/
theorem claim_C4_witness :
    _code_challenge "test" = some "n4bQgYhMfWWaL-qgxVrQFaO_TxsrC4Is0V1sFbDwCgg" :=
  (claim_C4 "test" (by decide)).2

def C2_url : String :=
  "https://login.microsoftonline.com/custom-tenant/v2.0/.well-known/openid-configuration"

/-- C2 counterexample: with a discovery URL and no tenant id, the loaded
tenant id is the first path segment of the discovery URL, which differs
from the last-but-one segment the claim names. -/
theorem claim_C2_counterexample :
    (_load_env_defaults { discovery_url := some C2_url }).tenant_id = "custom-tenant" ∧
    spec_tenantLastButOne C2_url = some ".well-known" ∧
    ("custom-tenant" : String) ≠ ".well-known" := by decide

/-- C2 amended: when the env file has no (truthy) tenant_id, the loaded
tenant id is the FIRST nonempty path segment of discovery_url when that
derivation produces one, and the default tenant id otherwise. -/
theorem claim_C2_amended (values : EnvValues) (hT : pyTruthy values.tenant_id = false) :
    (_load_env_defaults values).tenant_id =
      match _tenant_from_discovery_url values.discovery_url with
      | some t => if t.data.isEmpty then DEFAULT_TENANT_ID else t
      | none => DEFAULT_TENANT_ID := by
  simp only [_load_env_defaults, hT]
  cases h : _tenant_from_discovery_url values.discovery_url with
  | none => simp [pyTruthy]
  | some t => by_cases ht : t.data.isEmpty <;> simp [pyTruthy, ht]

/-- Witness for C2 amended at a concrete env mapping. -/
theorem claim_C2_amended_witness :
    pyTruthy (EnvValues.tenant_id { discovery_url := some C2_url }) = false ∧
    (_load_env_defaults { discovery_url := some C2_url }).tenant_id = "custom-tenant" := by
  refine ⟨by decide, ?_⟩
  have h := claim_C2_amended { discovery_url := some C2_url } (by decide)
  rw [h]; decide

/-- C3 counterexample: a non-blank URL carrying no `code` query parameter
for which `_extract_code` returns the input unchanged instead of raising. -/
theorem claim_C3_counterexample :
    _extract_code "https://example.com/cb" = .ok "https://example.com/cb" := by decide

/-- C3 amended: extraction from the example URL yields exactly "abc123";
non-blank input whose query string is non-empty but has no `code`
parameter raises an error; non-blank input without a query string is
returned verbatim. -/
theorem claim_C3_amended :
    _extract_code "https://example.com/cb?code=abc123&state=xyz" = .ok "abc123" ∧
    (∀ s : String, (pyStrip s).data.isEmpty = false →
      (pyUrlparse (pyStrip s)).query ≠ [] →
      "code" ∉ (parse_qs (pyUrlparse (pyStrip s)).query).map Prod.fst →
      _extract_code s = .error (.pyError extractCodeErrMsg)) ∧
    (∀ s : String, (pyStrip s).data.isEmpty = false →
      (pyUrlparse (pyStrip s)).query = [] →
      _extract_code s = .ok (pyStrip s)) := by
  refine ⟨by decide, ?_, ?_⟩
  · intro s h1 h2 h3
    have hq : (pyUrlparse (pyStrip s)).query.isEmpty = false := by
      cases h : (pyUrlparse (pyStrip s)).query with
      | nil => exact absurd h h2
      | cons a t => rfl
    simp [_extract_code, h1, hq, dictGet_eq_none _ _ h3]
  · intro s h1 h2
    have hq : (pyUrlparse (pyStrip s)).query.isEmpty = true := by rw [h2]; rfl
    simp [_extract_code, h1, hq]

/-- Witness for C3 amended: a URL with a query string but no code errors,
and a bare code without a query string is returned as-is. -/
theorem claim_C3_amended_witness :
    _extract_code "https://example.com/cb?state=xyz" = .error (.pyError extractCodeErrMsg) ∧
    _extract_code "abc123" = .ok (pyStrip "abc123") :=
  ⟨claim_C3_amended.2.1 "https://example.com/cb?state=xyz" (by decide) (by decide) (by decide),
   claim_C3_amended.2.2 "abc123" (by decide) (by decide)⟩

/-! Evaluation lemmas for the step monad. -/

theorem PyM.bind_apply {α β : Type} (x : PyM α) (f : α → PyM β) (ctx : Context) :
    (x >>= f) ctx =
      match x ctx with
      | (Except.ok a, c2) => f a c2
      | (Except.error e, c2) => (Except.error e, c2) := rfl

theorem PyM.read_apply (ctx : Context) : PyM.read ctx = (Except.ok ctx, ctx) := rfl

theorem PyM.mod_apply (f : Context → Context) (ctx : Context) :
    PyM.mod f ctx = (Except.ok (), f ctx) := rfl

theorem PyM.lift_apply {α : Type} (r : Except PyExc α) (ctx : Context) :
    PyM.lift r ctx = (r, ctx) := rfl

theorem PyM.http_apply (r : Except String JVal) (ctx : Context) :
    PyM.http r ctx = (r.mapError PyExc.pyError, ctx) := rfl

theorem PyM.skip_apply {α : Type} (msg : String) (ctx : Context) :
    (PyM.skip (α := α) msg) ctx = (Except.error (PyExc.skipStep msg), ctx) := rfl

theorem PyM.fail_apply {α : Type} (msg : String) (ctx : Context) :
    (PyM.fail (α := α) msg) ctx = (Except.error (PyExc.pyError msg), ctx) := rfl

theorem PyM.pure_apply {α : Type} (a : α) (ctx : Context) :
    (pure a : PyM α) ctx = (Except.ok a, ctx) := rfl

theorem run_step_name (name : String) (r : Except PyExc String) :
    (run_step name r).name = name := by
  cases r with
  | ok d => rfl
  | error e => cases e <;> rfl

/-- Python `step_client_credentials` never touches the `code_verifier` or
`authorization_code` slots of the context. -/
theorem scc_preserves (args : ReportArgs) (O : Oracle) (pc : Bool) (ctx : Context) :
    ((step_client_credentials args O pc) ctx).2.code_verifier = ctx.code_verifier ∧
    ((step_client_credentials args O pc) ctx).2.authorization_code = ctx.authorization_code := by
  unfold step_client_credentials
  split
  · simp [PyM.skip_apply]
  · split
    · simp [PyM.skip_apply]
    · simp only [PyM.bind_apply, PyM.http_apply, PyM.mod_apply, PyM.lift_apply,
        PyM.pure_apply]
      cases hpf : O.postForm (TOKEN_ENDPOINT args.tenant_id)
          [("client_id", JVal.jstr args.client_id),
           ("client_secret", optJ args.client_secret),
           ("grant_type", JVal.jstr "client_credentials"),
           ("scope", JVal.jstr (args.client_credentials_scope.getD ""))] with
      | error e => simp [hpf, Except.mapError]
      | ok parsed =>
        simp only [hpf, Except.mapError]
        cases hge : jGetD parsed "expires_in" (JVal.jstr "unknown") with
        | error e => simp [hge]
        | ok expires =>
          simp only [hge]
          cases hga : jGetD parsed "access_token" (JVal.jstr "") with
          | error e => simp [hga]
          | ok tok =>
            simp only [hga]
            cases hpl : pyLen tok with
            | error e => simp [hpl]
            | ok n => simp [hpl]

/-- With a truthy supplied code and no verifier in context, the
authorization step raises the PKCE error and leaves the context alone. -/
theorem sauth_pkce_fail (args : ReportArgs) (O : Oracle) (ctx : Context)
    (hac : pyTruthy args.authorization_code = true)
    (hcv : ctx.code_verifier = none) :
    (step_authorization args O true) ctx =
      (Except.error (PyExc.pyError
        "PKCE is required for this flow. Supply --code-verifier with the value used when obtaining the code."),
       ctx) := by
  unfold step_authorization
  rw [if_pos hac]
  simp [PyM.bind_apply, PyM.read_apply, PyM.fail_apply, hcv]

/-- With a truthy supplied code, a verifier in context and `_extract_code`
raising, the authorization step re-raises and leaves the context alone. -/
theorem sauth_extract_exc (args : ReportArgs) (O : Oracle) (upk : Bool) (ctx : Context)
    (hac : pyTruthy args.authorization_code = true) (v : String)
    (hcv : ctx.code_verifier = some v) (e : PyExc)
    (hex : _extract_code (args.authorization_code.getD "") = .error e) :
    (step_authorization args O upk) ctx = (Except.error e, ctx) := by
  unfold step_authorization
  rw [if_pos hac]
  simp [PyM.bind_apply, PyM.read_apply, PyM.lift_apply, PyM.fail_apply, hcv, hex]

/-- With no captured authorization code, the token step is skipped and the
context is unchanged. -/
theorem stoken_skip (args : ReportArgs) (O : Oracle) (upk pc : Bool) (ctx : Context)
    (h : ctx.authorization_code = none) :
    (step_token args O upk pc) ctx =
      (Except.error (PyExc.skipStep "No authorization code captured; token exchange skipped."),
       ctx) := by
  unfold step_token
  simp [PyM.bind_apply, PyM.read_apply, PyM.skip_apply, h, pyTruthy]

theorem mem_map_fst_filter {α : Type} (k : String) (l : List (String × α)) :
    k ∉ (l.filter (fun p => p.1 ≠ k)).map Prod.fst := by
  intro h
  obtain ⟨p, hp, hk⟩ := List.mem_map.mp h
  have hpf := List.of_mem_filter hp
  rw [hk] at hpf
  simp at hpf

/-- C1: whenever the resolved client is public (flag true, or flag unset
with no truthy secret), the form body assembled by the report's token step
has no `client_secret` key, even when a secret value is loaded; and with
the flag unset, `_resolve_public_client` is true exactly when no truthy
client secret is configured. -/
theorem claim_C1 (args : ReportArgs) (code : String) (cv : Option String)
    (h : _resolve_public_client args.public_client args.client_secret = true) :
    "client_secret" ∉ (step_token_data args code cv
        (_resolve_public_client args.public_client args.client_secret)).map Prod.fst ∧
    ∀ s : Option String, _resolve_public_client none s = !pyTruthy s := by
  refine ⟨?_, fun s => rfl⟩
  rw [h]
  intro hmem
  unfold step_token_data at hmem
  dsimp only at hmem
  rw [if_pos rfl] at hmem
  by_cases hcv : pyTruthy cv = true
  · rw [if_pos hcv, List.map_append] at hmem
    rcases List.mem_append.mp hmem with hm | hm
    · exact mem_map_fst_filter _ _ hm
    · simp at hm
  · rw [if_neg hcv] at hmem
    exact mem_map_fst_filter _ _ hmem

/-- Witness for C1 at a concrete public configuration with a loaded
secret. -/
theorem claim_C1_witness :
    _resolve_public_client C1_args.public_client C1_args.client_secret = true ∧
    ("client_secret" ∉ (step_token_data C1_args "abc123" (some "verifier")
        (_resolve_public_client C1_args.public_client C1_args.client_secret)).map Prod.fst ∧
     ∀ s : Option String, _resolve_public_client none s = !pyTruthy s) :=
  ⟨by decide, claim_C1 C1_args "abc123" (some "verifier") (by decide)⟩

/-- C6: `run_step` converts the SkipStep signal into a SKIP entry and any
other exception into a FAIL entry, both carrying the exception text as
detail, and every report run records exactly one entry per step: all seven
steps, always in the fixed order. -/
theorem claim_C6 :
    (∀ name msg, run_step name (.error (.skipStep msg)) = ⟨name, "SKIP", msg⟩) ∧
    (∀ name msg, run_step name (.error (.pyError msg)) = ⟨name, "FAIL", msg⟩) ∧
    (∀ name detail, run_step name (.ok detail) = ⟨name, "PASS", detail⟩) ∧
    ∀ (args : ReportArgs) (O : Oracle),
      (handle_report args O).1.map ReportEntry.name =
        ["Load configuration from " ++ args.env_file,
         "Fetch OIDC discovery metadata",
         "Client credentials grant",
         "Authorization code capture",
         "Exchange authorization code for tokens",
         "Refresh token exchange",
         "Userinfo endpoint call"] := by
  refine ⟨fun _ _ => rfl, fun _ _ => rfl, fun _ _ => rfl, fun args O => ?_⟩
  simp [handle_report, run_step_name]

/-- The exit code computed from a list of entries is nonzero exactly when
some entry failed. -/
theorem exit_nonzero_iff (l : List ReportEntry) :
    (if (l.filter (fun e => e.status == "FAIL")).isEmpty then (0 : Nat) else 1) ≠ 0 ↔
      ∃ e ∈ l, e.status = "FAIL" := by
  by_cases h : (l.filter (fun e => e.status == "FAIL")).isEmpty = true
  · rw [if_pos h]
    constructor
    · intro hh
      exact absurd rfl hh
    · rintro ⟨e, he, hf⟩
      rw [List.isEmpty_iff] at h
      have hmem : e ∈ l.filter (fun e => e.status == "FAIL") :=
        List.mem_filter.mpr ⟨he, by simp [hf]⟩
      rw [h] at hmem
      exact False.elim (List.not_mem_nil e hmem)
  · rw [if_neg h]
    constructor
    · intro _
      have hne : l.filter (fun e => e.status == "FAIL") ≠ [] := by
        intro hnil
        exact h (by rw [hnil]; rfl)
      obtain ⟨e, he⟩ := List.exists_mem_of_ne_nil _ hne
      obtain ⟨hel, hef⟩ := List.mem_filter.mp he
      exact ⟨e, hel, by simpa using hef⟩
    · intro _
      exact one_ne_zero

/-- C7: a report run exits non-zero exactly when some recorded entry has
status FAIL; SKIP entries never make the exit non-zero. -/
theorem claim_C7 (args : ReportArgs) (O : Oracle) :
    (handle_report args O).2 ≠ 0 ↔ ∃ e ∈ (handle_report args O).1, e.status = "FAIL" := by
  have hsplit : (handle_report args O).2 =
      if ((handle_report args O).1.filter (fun e => e.status == "FAIL")).isEmpty then 0
      else 1 := rfl
  rw [hsplit]
  exact exit_nonzero_iff (handle_report args O).1

/-- C5: a report run with an authorization code supplied but no PKCE
verifier, PKCE not disabled, records FAIL for the capture step with the
error demanding --code-verifier, and the token step ends SKIP: it is
never completed in such a run. -/
theorem claim_C5 (args : ReportArgs) (O : Oracle)
    (hac : pyTruthy args.authorization_code = true)
    (hcv : pyTruthy args.code_verifier = false)
    (hpkce : args.disable_pkce = false) :
    (handle_report args O).1[3]? = some ⟨"Authorization code capture", "FAIL",
      "PKCE is required for this flow. Supply --code-verifier with the value used when obtaining the code."⟩ ∧
    ((handle_report args O).1[4]?).map ReportEntry.status = some "SKIP" := by
  have hupk : (!args.disable_pkce) = true := by rw [hpkce]; rfl
  simp only [handle_report, hupk]
  set PC := _resolve_public_client args.public_client args.client_secret with hPC
  set ctx0 : Context :=
    { code_verifier := if pyTruthy args.code_verifier then args.code_verifier else none }
    with hctx0
  have hXcv : ((step_client_credentials args O PC) ctx0).2.code_verifier = none := by
    rw [(scc_preserves args O PC ctx0).1, hctx0]
    simp [hcv]
  have hXac : ((step_client_credentials args O PC) ctx0).2.authorization_code = none := by
    rw [(scc_preserves args O PC ctx0).2, hctx0]
  rw [sauth_pkce_fail args O _ hac hXcv]
  rw [stoken_skip args O true PC _ hXac]
  exact ⟨rfl, rfl⟩

/-- Witness for C5 at a concrete run. -/
theorem claim_C5_witness :
    (handle_report C5_args emptyOracle).1[3]? = some ⟨"Authorization code capture", "FAIL",
      "PKCE is required for this flow. Supply --code-verifier with the value used when obtaining the code."⟩ ∧
    ((handle_report C5_args emptyOracle).1[4]?).map ReportEntry.status = some "SKIP" :=
  claim_C5 C5_args emptyOracle (by decide) (by decide) (by decide)

/-- C9: blank input (empty or whitespace only) makes `_extract_code` raise
the SkipStep signal rather than an ordinary error, so a report run handed
a blank (whitespace) code with a verifier present records SKIP, not FAIL,
for the capture step. -/
theorem claim_C9 (s : String) (hblank : (pyStrip s).data.isEmpty = true) :
    _extract_code s = .error (.skipStep "Authorization code not provided.") ∧
    ∀ (args : ReportArgs) (O : Oracle) (v : String),
      args.authorization_code = some s →
      pyTruthy args.authorization_code = true →
      args.code_verifier = some v →
      pyTruthy args.code_verifier = true →
      ((handle_report args O).1[3]?).map ReportEntry.status = some "SKIP" := by
  have hex : _extract_code s = .error (.skipStep "Authorization code not provided.") := by
    simp [_extract_code, hblank]
  refine ⟨hex, ?_⟩
  intro args O v hacs hac hcvs hcv
  simp only [handle_report]
  set PC := _resolve_public_client args.public_client args.client_secret with hPC
  set ctx0 : Context :=
    { code_verifier := if pyTruthy args.code_verifier then args.code_verifier else none }
    with hctx0
  have hv : pyTruthy (some v) = true := by rw [← hcvs]; exact hcv
  have hXcv : ((step_client_credentials args O PC) ctx0).2.code_verifier = some v := by
    rw [(scc_preserves args O PC ctx0).1, hctx0]
    simp [hcv, hcvs, hv]
  have hex2 : _extract_code (args.authorization_code.getD "") =
      .error (.skipStep "Authorization code not provided.") := by
    rw [hacs]
    exact hex
  rw [sauth_extract_exc args O (!args.disable_pkce) _ hac v hXcv _ hex2]
  rfl

/-- Witness for C9 at a whitespace code in a concrete run. -/
theorem claim_C9_witness :
    (pyStrip " ").data.isEmpty = true ∧
    (_extract_code " " = .error (.skipStep "Authorization code not provided.") ∧
     ((handle_report C9_args emptyOracle).1[3]?).map ReportEntry.status = some "SKIP") :=
  ⟨by decide,
   ⟨(claim_C9 " " (by decide)).1,
    (claim_C9 " " (by decide)).2 C9_args emptyOracle "verifier" (by decide) (by decide)
      (by decide) (by decide)⟩⟩

end EntraCLI
